import Mathlib

/-!
Shallow embedding of the Void-Tax core: the plate-key normalizer, the
deduplication cache, the fine policy and the scan pipeline, translated from
`app/services/plate_cache.py`, `app/services/fine_service.py`,
`app/services/validation_api.py`, `app/routers/scan.py`,
`app/models/schemas.py` and `app/config.py`.

Modelling conventions:
- Python `datetime` instants and `timedelta` durations become `Nat`
  (minutes, matching `timedelta(minutes=cache_cooldown_min)`); the current
  clock value lives in the system state and is threaded explicitly.
- Python `float` amounts and confidences become `ℚ`.
- The Python `dict` backing the cache becomes an association list
  `List (String × CacheEntry)` with dict-assignment semantics
  (replace in place when the key is present, append otherwise).
- The two database tables (`fines`, `scan_logs`) become lists held in the
  system state; a commit appends.
- The fallible HTTP call of `ValidationAPIClient.check_vehicle` is driven
  by an explicit `HttpOutcome` argument (the response the `httpx` client
  would deliver), and the pseudo-random demo generator
  `_get_mock_status` is abstracted as a function argument
  `mock_status : String → VehicleStatus` (its internals are Mersenne-Twister
  randomness, outside the decision logic).
-/

namespace VoidTax

/-! ## app/models/schemas.py -/

/-- `ComplianceStatus` enum from `app/models/schemas.py`. -/
inductive ComplianceStatus where
  | compliant
  | tax_expired
  | insurance_expired
  | both_expired
deriving DecidableEq

/-- `VehicleStatus` pydantic model from `app/models/schemas.py`, with the
same field defaults (`road_tax_valid = True`, `insurance_valid = True`). -/
structure VehicleStatus where
  plate_number : String
  owner_name : Option String := none
  owner_id : Option String := none
  road_tax_valid : Bool := true
  road_tax_expiry : Option Nat := none
  insurance_valid : Bool := true
  insurance_expiry : Option Nat := none
deriving DecidableEq

/-- `VehicleStatus.is_compliant` property. -/
def VehicleStatus.is_compliant (v : VehicleStatus) : Bool :=
  v.road_tax_valid && v.insurance_valid

/-- `VehicleStatus.compliance_status` property, with the source's branch
order (compliant, both invalid, tax invalid, else insurance). -/
def VehicleStatus.compliance_status (v : VehicleStatus) : ComplianceStatus :=
  if v.road_tax_valid && v.insurance_valid then .compliant
  else if !v.road_tax_valid && !v.insurance_valid then .both_expired
  else if !v.road_tax_valid then .tax_expired
  else .insurance_expired

/-- `FineRecord` pydantic schema from `app/models/schemas.py`. -/
structure FineRecord where
  id : Option Nat := none
  plate_number : String
  owner_name : Option String := none
  owner_id : Option String := none
  fine_type : String
  fine_amount : ℚ
  issued_at : Nat
  paid : Bool := false
deriving DecidableEq

/-- `ScanResult` pydantic schema from `app/models/schemas.py`. -/
structure ScanResult where
  plate_number : String
  confidence : ℚ
  cached : Bool := false
  vehicle_status : Option VehicleStatus := none
  fine_issued : Bool := false
  fine_amount : Option ℚ := none
  error : Option String := none
deriving DecidableEq

/-! ## app/models/database.py rows -/

/-- Row of the `fines` table (`Fine` ORM model), `id` modelled as the
autoincrement position. -/
structure Fine where
  id : Nat
  plate_number : String
  owner_name : Option String := none
  owner_id : Option String := none
  fine_type : String
  fine_amount : ℚ
  issued_at : Nat
  paid : Bool := false
  paid_at : Option Nat := none
deriving DecidableEq

/-- Row of the `scan_logs` table (`ScanLog` ORM model). -/
structure ScanLog where
  plate_number : String
  scanned_at : Nat
  confidence : ℚ
  road_tax_valid : Option Bool
  insurance_valid : Option Bool
  fine_issued : Bool
  cached_result : Bool
deriving DecidableEq

/-! ## app/config.py -/

/-- `Settings` from `app/config.py`, restricted to the fields the core
consumes, with the source's default values. -/
structure Settings where
  cache_cooldown_min : Nat := 5
  ocr_confidence_min : ℚ := 1/2
  external_api_timeout : Nat := 10
  road_tax_fine_amount : ℚ := 150
  insurance_fine_amount : ℚ := 300
deriving DecidableEq

/-- The default settings instance (`get_settings()` with no `.env`
overrides). -/
def defaultSettings : Settings := {}

/-! ## Plate normalization (`PlateCache._normalize_plate`) -/

/-- Python's `str.upper()` on the character level (`Char.toUpper` is the
basic-latin case map, which covers the OCR alphabet `A–Z0–9` plus noise). -/
def pyUpperChars (cs : List Char) : List Char := cs.map Char.toUpper

/-- Python's `str.replace(c, "")` for a single-character needle: removes
every occurrence of `c`. -/
def removeAllChar (c : Char) (cs : List Char) : List Char :=
  cs.filter (fun a => a ≠ c)

/-- Character-level body of `_normalize_plate`:
`plate_number.upper().replace(" ", "").replace("-", "")`. -/
def normalizeChars (cs : List Char) : List Char :=
  removeAllChar '-' (removeAllChar ' ' (pyUpperChars cs))

/-- `PlateCache._normalize_plate` from `app/services/plate_cache.py`.
`FineService.get_fine_by_plate` inlines the identical expression. -/
def normalize_plate (plate_number : String) : String :=
  String.mk (normalizeChars plate_number.data)

/-! ## Deduplication cache (`app/services/plate_cache.py`) -/

/-- `CacheEntry` dataclass. -/
structure CacheEntry where
  plate_number : String
  result : VehicleStatus
  timestamp : Nat
deriving DecidableEq

/-- `CacheEntry.is_expired`: `datetime.now() - self.timestamp > cooldown`
(`Nat` subtraction truncates at zero exactly as a negative timedelta always
compares below the nonnegative cooldown). -/
def CacheEntry.is_expired (e : CacheEntry) (now cooldown : Nat) : Bool :=
  now - e.timestamp > cooldown

/-- Python `dict` read `self._cache.get(normalized)`. -/
def lookupKey (cache : List (String × CacheEntry)) (k : String) :
    Option CacheEntry :=
  (cache.find? (fun p => p.1 == k)).map (fun p => p.2)

/-- Python `del self._cache[normalized]`. -/
def eraseKey (cache : List (String × CacheEntry)) (k : String) :
    List (String × CacheEntry) :=
  cache.filter (fun p => p.1 ≠ k)

/-- Python `dict` assignment `self._cache[normalized] = entry`: replaces the
entry in place when the key is present, appends otherwise. -/
def setKey (cache : List (String × CacheEntry)) (k : String) (e : CacheEntry) :
    List (String × CacheEntry) :=
  if cache.any (fun p => p.1 == k) then
    cache.map (fun p => if p.1 == k then (k, e) else p)
  else
    cache ++ [(k, e)]

/-- Whole-system state: the cache object's fields (`_cooldown`, `_cache`,
`_hit_count`, `_miss_count`), the two database tables, and the clock. -/
structure SysState where
  cooldown : Nat
  cache : List (String × CacheEntry) := []
  hit_count : Nat := 0
  miss_count : Nat := 0
  fines : List Fine := []
  scan_logs : List ScanLog := []
  now : Nat := 0
deriving DecidableEq

/-- `PlateCache.get_cached_result`: lazy-expiry lookup with hit/miss
accounting. -/
def get_cached_result (st : SysState) (plate_number : String) :
    SysState × Option VehicleStatus :=
  let normalized := normalize_plate plate_number
  match lookupKey st.cache normalized with
  | some entry =>
    if !entry.is_expired st.now st.cooldown then
      ({ st with hit_count := st.hit_count + 1 }, some entry.result)
    else
      ({ st with cache := eraseKey st.cache normalized,
                 miss_count := st.miss_count + 1 }, none)
  | none => ({ st with miss_count := st.miss_count + 1 }, none)

/-- `PlateCache.add_plate`: store a freshly timestamped entry under the
normalized key. -/
def add_plate (st : SysState) (plate_number : String)
    (result : VehicleStatus) : SysState :=
  let normalized := normalize_plate plate_number
  let entry : CacheEntry :=
    { plate_number := normalized, result := result, timestamp := st.now }
  { st with cache := setKey st.cache normalized entry }

/-- Advance the modelled clock (the passage of wall time between calls). -/
def advanceTime (st : SysState) (d : Nat) : SysState :=
  { st with now := st.now + d }

/-! ## Fine service (`app/services/fine_service.py`) -/

/-- `FineService.calculate_fine`, with the source's branch order. -/
def calculate_fine (s : Settings) (vehicle_status : VehicleStatus) :
    ℚ × String :=
  match vehicle_status.compliance_status with
  | .both_expired => (s.road_tax_fine_amount + s.insurance_fine_amount, "both")
  | .tax_expired => (s.road_tax_fine_amount, "road_tax")
  | .insurance_expired => (s.insurance_fine_amount, "insurance")
  | .compliant => (0, "none")

/-- `FineService.issue_fine`: no-op for a compliant status or a zero
amount; otherwise commits one `Fine` row and one `ScanLog` row
(`fine_issued=True, cached_result=False`) and returns the `FineRecord`.
The best-effort `notify_fine` HTTP call has no local effect. -/
def issue_fine (s : Settings) (st : SysState)
    (vehicle_status : VehicleStatus) (confidence : ℚ) :
    SysState × Option FineRecord :=
  if vehicle_status.is_compliant then (st, none)
  else
    let amount_type := calculate_fine s vehicle_status
    if amount_type.1 = 0 then (st, none)
    else
      let fine : Fine :=
        { id := st.fines.length + 1
          plate_number := vehicle_status.plate_number
          owner_name := vehicle_status.owner_name
          owner_id := vehicle_status.owner_id
          fine_type := amount_type.2
          fine_amount := amount_type.1
          issued_at := st.now }
      let scan_log : ScanLog :=
        { plate_number := vehicle_status.plate_number
          scanned_at := st.now
          confidence := confidence
          road_tax_valid := some vehicle_status.road_tax_valid
          insurance_valid := some vehicle_status.insurance_valid
          fine_issued := true
          cached_result := false }
      ({ st with fines := st.fines ++ [fine],
                 scan_logs := st.scan_logs ++ [scan_log] },
       some { id := some fine.id
              plate_number := fine.plate_number
              owner_name := fine.owner_name
              owner_id := fine.owner_id
              fine_type := fine.fine_type
              fine_amount := fine.fine_amount
              issued_at := fine.issued_at
              paid := fine.paid })

/-- `FineService.log_scan`: commit one `ScanLog` row. -/
def log_scan (st : SysState) (plate_number : String) (confidence : ℚ)
    (vehicle_status : Option VehicleStatus) (cached : Bool)
    (fine_issued : Bool) : SysState :=
  { st with scan_logs := st.scan_logs ++
      [{ plate_number := plate_number
         scanned_at := st.now
         confidence := confidence
         road_tax_valid := vehicle_status.map (fun v => v.road_tax_valid)
         insurance_valid := vehicle_status.map (fun v => v.insurance_valid)
         fine_issued := fine_issued
         cached_result := cached }] }

/-- `FineService.get_fine_by_plate`: normalizes the queried plate with the
same expression as `_normalize_plate` and selects the rows whose stored
`plate_number` equals the normalized key (the `issued_at` ordering of the
source is irrelevant to which rows are returned). -/
def get_fine_by_plate (st : SysState) (plate_number : String) : List Fine :=
  let normalized := normalize_plate plate_number
  st.fines.filter (fun f => f.plate_number == normalized)

/-! ## Validation client (`app/services/validation_api.py`) -/

/-- Payload of a 200 response, with `data.get(field, default)` optionality. -/
structure VehicleData where
  owner_name : Option String := none
  owner_id : Option String := none
  road_tax_valid : Option Bool := none
  road_tax_expiry : Option Nat := none
  insurance_valid : Option Bool := none
  insurance_expiry : Option Nat := none
deriving DecidableEq

/-- What the `httpx` call delivers: an HTTP response with a status code, or
a raised `httpx.RequestError` (connection failure or timeout). -/
inductive HttpOutcome where
  | response (status_code : Nat) (data : VehicleData)
  | networkError (msg : String)
deriving DecidableEq

/-- `ValidationAPIClient.check_vehicle`: 200 parses the payload (missing
booleans default to `True`); 404 is treated as a compliant new vehicle;
any other status raises `API returned status {code}`; a network error or
timeout (`httpx.RequestError`) is caught and answered with the demo mock
status instead of failing. -/
def check_vehicle (plate_number : String) (resp : HttpOutcome)
    (mock_status : String → VehicleStatus) : Except String VehicleStatus :=
  match resp with
  | .response status_code data =>
    if status_code = 200 then
      .ok { plate_number := plate_number
            owner_name := data.owner_name
            owner_id := data.owner_id
            road_tax_valid := data.road_tax_valid.getD true
            road_tax_expiry := data.road_tax_expiry
            insurance_valid := data.insurance_valid.getD true
            insurance_expiry := data.insurance_expiry }
    else if status_code = 404 then
      .ok { plate_number := plate_number
            road_tax_valid := true
            insurance_valid := true }
    else
      .error ("API returned status " ++ toString status_code)
  | .networkError _ => .ok (mock_status plate_number)

/-! ## Scan pipeline (`app/routers/scan.py`, `_process_plate`) -/

/-- `MIN_FINE_CONFIDENCE` constant of `_process_plate`. -/
def MIN_FINE_CONFIDENCE : ℚ := 9/10

/-- `_process_plate`: cache-first lookup; on a miss, validate, cache the
status unconditionally, then either issue a fine (non-compliant and
`confidence >= MIN_FINE_CONFIDENCE`), log without fining (non-compliant,
low confidence), or log a compliant scan; an exception raised by
`check_vehicle` is caught and converted into an error `ScanResult`. -/
def process_plate (s : Settings) (st : SysState) (plate_number : String)
    (confidence : ℚ) (resp : HttpOutcome)
    (mock_status : String → VehicleStatus) : SysState × ScanResult :=
  let looked := get_cached_result st plate_number
  match looked.2 with
  | some cached_status =>
    (looked.1,
     { plate_number := plate_number
       confidence := confidence
       cached := true
       vehicle_status := some cached_status
       fine_issued := false
       fine_amount := none
       error := none })
  | none =>
    match check_vehicle plate_number resp mock_status with
    | .error e =>
      (looked.1,
       { plate_number := plate_number
         confidence := confidence
         cached := false
         vehicle_status := none
         fine_issued := false
         fine_amount := none
         error := some e })
    | .ok vehicle_status =>
      let st2 := add_plate looked.1 plate_number vehicle_status
      if vehicle_status.is_compliant = false ∧
          MIN_FINE_CONFIDENCE ≤ confidence then
        let issued := issue_fine s st2 vehicle_status confidence
        (issued.1,
         { plate_number := plate_number
           confidence := confidence
           cached := false
           vehicle_status := some vehicle_status
           fine_issued := issued.2.isSome
           fine_amount := issued.2.map (fun r => r.fine_amount)
           error := none })
      else if vehicle_status.is_compliant = false then
        (log_scan st2 plate_number confidence (some vehicle_status)
           false false,
         { plate_number := plate_number
           confidence := confidence
           cached := false
           vehicle_status := some vehicle_status
           fine_issued := false
           fine_amount := none
           error := none })
      else
        (log_scan st2 plate_number confidence (some vehicle_status)
           false false,
         { plate_number := plate_number
           confidence := confidence
           cached := false
           vehicle_status := some vehicle_status
           fine_issued := false
           fine_amount := none
           error := none })

/-- The Python-dict invariant on the modelled cache: at most one entry per
key, phrased as distinctness of the stored keys. -/
def distinctKeys (cache : List (String × CacheEntry)) : Prop :=
  (cache.map Prod.fst).Nodup

/-! ## Concrete sample values (used by closed witness statements) -/

/-- A concrete stand-in for the demo mock-status generator. -/
def mockDefault : String → VehicleStatus := fun p => { plate_number := p }

/-- A vehicle status with both certificates valid (the schema defaults). -/
def vsAB1 : VehicleStatus := { plate_number := "AB1" }

/-- A cache entry for `vsAB1` stored at time 0. -/
def entryAB1 : CacheEntry :=
  { plate_number := "AB1", result := vsAB1, timestamp := 0 }

/-- A state whose cache holds `entryAB1`, observed at the given time. -/
def stWithAB1 (now : Nat) : SysState :=
  { cooldown := 5, cache := [("AB1", entryAB1)], now := now }

/-- A fresh state with the default five-minute cooldown. -/
def stFresh : SysState := { cooldown := 5 }

/-- A 200 payload reporting both certificates invalid. -/
def dataBothInvalid : VehicleData :=
  { road_tax_valid := some false, insurance_valid := some false }

/-- A non-compliant status (both certificates invalid). -/
def vsBothInvalid : VehicleStatus :=
  { plate_number := "AB1", road_tax_valid := false, insurance_valid := false }

/-- The status `check_vehicle` parses from `dataBothInvalid` for the raw
plate text `ABC 123`. -/
def vsABC123Invalid : VehicleStatus :=
  { plate_number := "ABC 123", road_tax_valid := false,
    insurance_valid := false }

/-! ## Helper lemmas: character case map -/

/-- `Char.ofNat` round-trips through `toNat` on valid scalar values. -/
theorem char_toNat_ofNat_of_valid {n : Nat} (h : n.isValidChar) :
    (Char.ofNat n).toNat = n := by
  simp [Char.ofNat, h, Char.ofNatAux, Char.toNat, UInt32.toNat]

/-- The basic-latin upper-case map is idempotent. -/
theorem char_toUpper_toUpper (c : Char) : c.toUpper.toUpper = c.toUpper := by
  unfold Char.toUpper
  by_cases h : c.toNat ≥ 97 ∧ c.toNat ≤ 122
  · rw [if_pos h]
    have hv : (c.toNat - 32).isValidChar := Or.inl (by omega)
    rw [char_toNat_ofNat_of_valid hv]
    rw [if_neg (by omega)]
  · simp only [if_neg h]

/-! ## Helper lemmas: normalization -/

/-- Every character surviving normalization is upper-case-stable and is
neither a space nor a hyphen. -/
theorem mem_normalizeChars {c : Char} {cs : List Char}
    (h : c ∈ normalizeChars cs) : c.toUpper = c ∧ c ≠ ' ' ∧ c ≠ '-' := by
  simp only [normalizeChars, removeAllChar, pyUpperChars, List.mem_filter,
    List.mem_map, decide_eq_true_eq] at h
  obtain ⟨⟨⟨a, _, rfl⟩, hs⟩, hh⟩ := h
  exact ⟨char_toUpper_toUpper a, hs, hh⟩

/-- Normalization fixes any list of upper-case-stable, separator-free
characters. -/
theorem normalizeChars_fixed {cs : List Char}
    (h : ∀ c ∈ cs, c.toUpper = c ∧ c ≠ ' ' ∧ c ≠ '-') :
    normalizeChars cs = cs := by
  induction cs with
  | nil => rfl
  | cons a t ih =>
    obtain ⟨h1, h2, h3⟩ := h a (by simp)
    have ht : normalizeChars t = t := ih (fun c hc => h c (by simp [hc]))
    simp only [normalizeChars, removeAllChar, pyUpperChars] at ht ⊢
    rw [List.map_cons, h1, List.filter_cons_of_pos (by simpa using h2),
        List.filter_cons_of_pos (by simpa using h3)]
    exact congrArg (List.cons a) ht

/-- C9 (claim): plate normalization is idempotent. -/
theorem C9_normalize_idempotent (x : String) :
    normalize_plate (normalize_plate x) = normalize_plate x := by
  show String.mk (normalizeChars (normalizeChars x.data)) = _
  rw [normalizeChars_fixed (fun c hc => mem_normalizeChars hc)]
  rfl

/-- C6 (counterexample): the claim says the normalized key contains no
characters other than letters and digits; the code keeps `.` (and every
other non-separator character) unchanged. -/
theorem C6_counterexample :
    normalize_plate "A.1" = "A.1" ∧
    '.' ∈ (normalize_plate "A.1").data ∧ '.'.isAlphanum = false := by
  decide

/-- C6 (amended): normalization is total and deterministic; it upper-cases
every character and removes exactly the space and hyphen separators, leaving
every other character (alphanumeric or not) in place, and it maps the empty
string to the empty key. -/
theorem C6_normalizer_amended (s : String) :
    (normalize_plate s).data =
      (s.data.map Char.toUpper).filter (fun c => c ≠ '-' && c ≠ ' ') ∧
    (∀ c ∈ (normalize_plate s).data,
      c.toUpper = c ∧ c ≠ ' ' ∧ c ≠ '-') ∧
    normalize_plate "" = "" := by
  refine ⟨?_, fun c hc => mem_normalizeChars hc, rfl⟩
  show normalizeChars s.data = _
  simp only [normalizeChars, removeAllChar, pyUpperChars, List.filter_filter]

/-- C6 (witness): the amended characterization evaluated on `ab-1 .c`,
including one membership instance. -/
theorem C6_normalizer_amended_witness :
    (normalize_plate "ab-1 .c").data =
      (("ab-1 .c" : String).data.map Char.toUpper).filter
        (fun c => c ≠ '-' && c ≠ ' ') ∧
    ('B'.toUpper = 'B' ∧ 'B' ≠ ' ' ∧ 'B' ≠ '-') :=
  ⟨(C6_normalizer_amended "ab-1 .c").1,
   (C6_normalizer_amended "ab-1 .c").2.1 'B' (by decide)⟩

/-! ## Helper lemmas: association-list cache -/

/-- After an erase, the erased key can no longer be found. -/
theorem lookupKey_eraseKey_self (c : List (String × CacheEntry)) (k : String) :
    lookupKey (eraseKey c k) k = none := by
  unfold lookupKey eraseKey
  rw [List.find?_eq_none.mpr]
  · rfl
  · intro x hx
    simp only [List.mem_filter, decide_eq_true_eq] at hx
    simp [hx.2]

/-- Dict assignment on an absent key appends. -/
theorem setKey_of_not_mem {c : List (String × CacheEntry)} {k : String}
    (e : CacheEntry) (h : c.any (fun p => p.1 == k) = false) :
    setKey c k e = c ++ [(k, e)] := by
  simp [setKey, h]

/-- Dict assignment on a present key replaces in place. -/
theorem setKey_of_mem {c : List (String × CacheEntry)} {k : String}
    (e : CacheEntry) (h : c.any (fun p => p.1 == k) = true) :
    setKey c k e = c.map (fun p => if p.1 == k then (k, e) else p) := by
  simp [setKey, h]

/-- Replacing in place does not change the stored keys. -/
theorem mapFst_setKey_of_mem {c : List (String × CacheEntry)} {k : String}
    (e : CacheEntry) (h : c.any (fun p => p.1 == k) = true) :
    (setKey c k e).map Prod.fst = c.map Prod.fst := by
  rw [setKey_of_mem e h, List.map_map]
  apply List.map_congr_left
  intro a _
  by_cases ha : a.1 = k
  · simp [Function.comp, ha]
  · simp [Function.comp, ha]

/-- Dict assignment preserves key distinctness. -/
theorem distinctKeys_setKey {c : List (String × CacheEntry)} (k : String)
    (e : CacheEntry) (h : distinctKeys c) : distinctKeys (setKey c k e) := by
  by_cases hmem : c.any (fun p => p.1 == k) = true
  · unfold distinctKeys
    rw [mapFst_setKey_of_mem e hmem]
    exact h
  · rw [Bool.not_eq_true] at hmem
    unfold distinctKeys
    rw [setKey_of_not_mem e hmem, List.map_append, List.nodup_append]
    refine ⟨h, List.nodup_singleton k, ?_⟩
    intro a ha hb
    simp only [List.map_cons, List.map_nil, List.mem_singleton] at hb
    subst hb
    rw [List.any_eq_false] at hmem
    obtain ⟨p, hp, rfl⟩ := List.mem_map.mp ha
    exact hmem p hp (by simp)

/-- After a dict assignment on a distinct-keyed cache, the assigned key is
stored exactly once. -/
theorem count_key_setKey {c : List (String × CacheEntry)} (k : String)
    (e : CacheEntry) (h : distinctKeys c) :
    ((setKey c k e).map Prod.fst).count k = 1 := by
  by_cases hmem : c.any (fun p => p.1 == k) = true
  · rw [mapFst_setKey_of_mem e hmem]
    apply List.count_eq_one_of_mem h
    rw [List.any_eq_true] at hmem
    obtain ⟨p, hp, hpk⟩ := hmem
    have hk : p.1 = k := by simpa using hpk
    exact hk ▸ List.mem_map_of_mem Prod.fst hp
  · rw [Bool.not_eq_true] at hmem
    rw [setKey_of_not_mem e hmem, List.map_append, List.count_append]
    have h0 : (c.map Prod.fst).count k = 0 := by
      apply List.count_eq_zero_of_not_mem
      intro hk
      obtain ⟨p, hp, hpk⟩ := List.mem_map.mp hk
      rw [List.any_eq_false] at hmem
      exact hmem p hp (by simp [hpk])
    simp [h0]

/-- In the replace branch, the lookup of the assigned key finds the fresh
entry. -/
theorem find?_replace_of_mem {c : List (String × CacheEntry)} {k : String}
    (e : CacheEntry) (h : c.any (fun p => p.1 == k) = true) :
    (c.map (fun p => if p.1 == k then (k, e) else p)).find?
      (fun p => p.1 == k) = some (k, e) := by
  induction c with
  | nil => simp at h
  | cons a t ih =>
    by_cases ha : a.1 = k
    · simp [ha]
    · have ha' : (a.1 == k) = false := by simp [ha]
      have ht : t.any (fun p => p.1 == k) = true := by
        simp only [List.any_cons, ha', Bool.false_or] at h
        exact h
      simp only [List.map_cons, ha', Bool.false_eq_true, if_false,
        List.find?_cons]
      exact ih ht

/-- Looking up a key right after assigning it yields the fresh entry. -/
theorem lookupKey_setKey_self (c : List (String × CacheEntry)) (k : String)
    (e : CacheEntry) : lookupKey (setKey c k e) k = some e := by
  by_cases hmem : c.any (fun p => p.1 == k) = true
  · rw [setKey_of_mem e hmem]
    unfold lookupKey
    rw [find?_replace_of_mem e hmem]
    rfl
  · rw [Bool.not_eq_true] at hmem
    rw [setKey_of_not_mem e hmem]
    unfold lookupKey
    rw [List.find?_append, List.find?_eq_none.mpr]
    · simp
    · intro x hx
      rw [List.any_eq_false] at hmem
      exact hmem x hx

/-! ## Claim C3: lazy-expiry cache lookup -/

/-- C3 (claim): `get_cached_result` returns the stored snapshot and bumps
the hit counter exactly when an unexpired entry exists; an expired entry is
deleted during the lookup, which counts as a miss; an absent entry counts
as a miss. -/
theorem C3_cache_lookup (st : SysState) (plate : String) :
    (∀ e, lookupKey st.cache (normalize_plate plate) = some e →
      st.now - e.timestamp ≤ st.cooldown →
      get_cached_result st plate =
        ({ st with hit_count := st.hit_count + 1 }, some e.result)) ∧
    (∀ e, lookupKey st.cache (normalize_plate plate) = some e →
      st.cooldown < st.now - e.timestamp →
      get_cached_result st plate =
        ({ st with cache := eraseKey st.cache (normalize_plate plate),
                   miss_count := st.miss_count + 1 }, none) ∧
      lookupKey (get_cached_result st plate).1.cache
        (normalize_plate plate) = none) ∧
    (lookupKey st.cache (normalize_plate plate) = none →
      get_cached_result st plate =
        ({ st with miss_count := st.miss_count + 1 }, none)) := by
  refine ⟨?_, ?_, ?_⟩
  · intro e he hle
    have hx : e.is_expired st.now st.cooldown = false := by
      simp [CacheEntry.is_expired, Nat.not_lt.mpr hle]
    simp [get_cached_result, he, hx]
  · intro e he hgt
    have hx : e.is_expired st.now st.cooldown = true := by
      simp [CacheEntry.is_expired, hgt]
    have hres : get_cached_result st plate =
        ({ st with cache := eraseKey st.cache (normalize_plate plate),
                   miss_count := st.miss_count + 1 }, none) := by
      simp [get_cached_result, he, hx]
    refine ⟨hres, ?_⟩
    rw [hres]
    exact lookupKey_eraseKey_self st.cache (normalize_plate plate)
  · intro hnone
    simp [get_cached_result, hnone]

/-- C3 (witness): the three lookup cases at concrete states. -/
theorem C3_cache_lookup_witness :
    (get_cached_result (stWithAB1 3) "ab-1" =
      ({ stWithAB1 3 with hit_count := 1 }, some vsAB1)) ∧
    (get_cached_result (stWithAB1 6) "ab-1" =
      ({ stWithAB1 6 with cache := [], miss_count := 1 }, none)) ∧
    (get_cached_result stFresh "ab-1" =
      ({ stFresh with miss_count := 1 }, none)) := by
  refine ⟨?_, ?_, ?_⟩
  · exact (C3_cache_lookup (stWithAB1 3) "ab-1").1 entryAB1
      (by decide) (by decide)
  · exact ((C3_cache_lookup (stWithAB1 6) "ab-1").2.1 entryAB1
      (by decide) (by decide)).1
  · exact (C3_cache_lookup stFresh "ab-1").2.2 (by decide)

/-! ## Claim C8: replace-on-insert -/

/-- C8 (claim): the cache keeps at most one entry per normalized key;
inserting twice for the same key (the second insert `d` time units later)
leaves the key stored exactly once, and the surviving entry carries the
second insert's status and timestamp. -/
theorem C8_cache_replace (st : SysState) (plate : String)
    (v1 v2 : VehicleStatus) (d : Nat) (h : distinctKeys st.cache) :
    distinctKeys (add_plate st plate v1).cache ∧
    distinctKeys
      (add_plate (advanceTime (add_plate st plate v1) d) plate v2).cache ∧
    ((add_plate (advanceTime (add_plate st plate v1) d) plate
        v2).cache.map Prod.fst).count (normalize_plate plate) = 1 ∧
    lookupKey
      (add_plate (advanceTime (add_plate st plate v1) d) plate v2).cache
      (normalize_plate plate) =
      some { plate_number := normalize_plate plate, result := v2,
             timestamp := st.now + d } := by
  refine ⟨distinctKeys_setKey _ _ h, ?_, ?_, ?_⟩
  · exact distinctKeys_setKey _ _ (distinctKeys_setKey _ _ h)
  · exact count_key_setKey _ _ (distinctKeys_setKey _ _ h)
  · exact lookupKey_setKey_self _ _ _

/-- C8 (witness): double insert at a concrete state. -/
theorem C8_cache_replace_witness :
    ((add_plate (advanceTime (add_plate { cooldown := 5 } "ab-1"
        { plate_number := "ab-1" }) 2) "ab-1"
        { plate_number := "ab-1", owner_name := some "O" }).cache.map
      Prod.fst).count (normalize_plate "ab-1") = 1 ∧
    lookupKey
      (add_plate (advanceTime (add_plate { cooldown := 5 } "ab-1"
        { plate_number := "ab-1" }) 2) "ab-1"
        { plate_number := "ab-1", owner_name := some "O" }).cache
      (normalize_plate "ab-1") =
      some { plate_number := normalize_plate "ab-1",
             result := { plate_number := "ab-1", owner_name := some "O" },
             timestamp := 2 } := by
  refine ⟨?_, ?_⟩
  · exact (C8_cache_replace { cooldown := 5 } "ab-1" _ _ 2
      (by simp [distinctKeys])).2.2.1
  · exact (C8_cache_replace { cooldown := 5 } "ab-1" _ _ 2
      (by simp [distinctKeys])).2.2.2

/-! ## Helper lemmas: pipeline state bookkeeping -/

/-- A cache lookup never touches the database tables, the clock or the
cooldown. -/
theorem get_cached_result_preserves (st : SysState) (plate : String) :
    (get_cached_result st plate).1.fines = st.fines ∧
    (get_cached_result st plate).1.scan_logs = st.scan_logs ∧
    (get_cached_result st plate).1.now = st.now ∧
    (get_cached_result st plate).1.cooldown = st.cooldown := by
  cases h : lookupKey st.cache (normalize_plate plate) with
  | none => simp [get_cached_result, h]
  | some e =>
    cases hx : e.is_expired st.now st.cooldown with
    | false => simp [get_cached_result, h, hx]
    | true => simp [get_cached_result, h, hx]

/-- On a non-compliant status with a nonzero computed amount, `issue_fine`
appends exactly one fine row and one `fine_issued=True` scan-log row,
returns a record, and leaves the cache alone. -/
theorem issue_fine_shape (s : Settings) (st : SysState)
    (vs : VehicleStatus) (conf : ℚ) (hnc : vs.is_compliant = false)
    (hamt : (calculate_fine s vs).1 ≠ 0) :
    (∃ f : Fine, (issue_fine s st vs conf).1.fines = st.fines ++ [f] ∧
      f.plate_number = vs.plate_number ∧
      f.fine_amount = (calculate_fine s vs).1 ∧
      f.fine_type = (calculate_fine s vs).2) ∧
    (∃ l : ScanLog, (issue_fine s st vs conf).1.scan_logs =
      st.scan_logs ++ [l] ∧ l.fine_issued = true) ∧
    (issue_fine s st vs conf).2.isSome = true ∧
    (issue_fine s st vs conf).1.cache = st.cache := by
  simp only [issue_fine, hnc, Bool.false_eq_true, if_false]
  rw [if_neg hamt]
  exact ⟨⟨_, rfl, rfl, rfl, rfl⟩, ⟨_, rfl, rfl⟩, rfl, rfl⟩

/-- A non-compliant status always computes a positive amount when both
configured fine amounts are positive. -/
theorem calculate_fine_pos (s : Settings) (vs : VehicleStatus)
    (hnc : vs.is_compliant = false)
    (hrt : 0 < s.road_tax_fine_amount)
    (hins : 0 < s.insurance_fine_amount) :
    0 < (calculate_fine s vs).1 := by
  cases hr : vs.road_tax_valid <;> cases hi : vs.insurance_valid
  · simpa [calculate_fine, VehicleStatus.compliance_status, hr, hi]
      using add_pos hrt hins
  · simpa [calculate_fine, VehicleStatus.compliance_status, hr, hi]
      using hrt
  · simpa [calculate_fine, VehicleStatus.compliance_status, hr, hi]
      using hins
  · simp [VehicleStatus.is_compliant, hr, hi] at hnc

/-! ## Claim C1: confidence-gated fine issuance -/

/-- C1 (claim): on a cache miss with a validated non-compliant status (and
positive configured fine amounts, as in the defaults), a confidence at or
above `MIN_FINE_CONFIDENCE` creates exactly one fine row together with a
`fine_issued=True` scan-log row, while a lower confidence creates no fine
row but still writes a `fine_issued=False` scan-log row. -/
theorem C1_confidence_gate (s : Settings) (st : SysState) (plate : String)
    (conf : ℚ) (resp : HttpOutcome) (mock : String → VehicleStatus)
    (vs : VehicleStatus)
    (hmiss : (get_cached_result st plate).2 = none)
    (hok : check_vehicle plate resp mock = .ok vs)
    (hnc : vs.is_compliant = false)
    (hrt : 0 < s.road_tax_fine_amount)
    (hins : 0 < s.insurance_fine_amount) :
    (MIN_FINE_CONFIDENCE ≤ conf →
      (∃ f : Fine, (process_plate s st plate conf resp mock).1.fines =
        st.fines ++ [f]) ∧
      (∃ l : ScanLog, (process_plate s st plate conf resp mock).1.scan_logs
        = st.scan_logs ++ [l] ∧ l.fine_issued = true) ∧
      (process_plate s st plate conf resp mock).2.fine_issued = true) ∧
    (conf < MIN_FINE_CONFIDENCE →
      (process_plate s st plate conf resp mock).1.fines = st.fines ∧
      (∃ l : ScanLog, (process_plate s st plate conf resp mock).1.scan_logs
        = st.scan_logs ++ [l] ∧ l.fine_issued = false) ∧
      (process_plate s st plate conf resp mock).2.fine_issued = false) := by
  have hpres := get_cached_result_preserves st plate
  have hamt : (calculate_fine s vs).1 ≠ 0 :=
    (calculate_fine_pos s vs hnc hrt hins).ne'
  have h2f : (add_plate (get_cached_result st plate).1 plate vs).fines =
      st.fines := by
    simp [add_plate, hpres.1]
  have h2l : (add_plate (get_cached_result st plate).1 plate vs).scan_logs
      = st.scan_logs := by
    simp [add_plate, hpres.2.1]
  constructor
  · intro hconf
    simp only [process_plate, hmiss, hok]
    rw [if_pos ⟨hnc, hconf⟩]
    obtain ⟨⟨f, hf, -, -, -⟩, ⟨l, hl, hli⟩, hsome, -⟩ :=
      issue_fine_shape s (add_plate (get_cached_result st plate).1 plate vs)
        vs conf hnc hamt
    rw [h2f] at hf
    rw [h2l] at hl
    exact ⟨⟨f, hf⟩, ⟨l, hl, hli⟩, hsome⟩
  · intro hconf
    simp only [process_plate, hmiss, hok]
    rw [if_neg (fun hc => absurd hc.2 (not_le.mpr hconf)), if_pos hnc]
    have hrow : (log_scan (add_plate (get_cached_result st plate).1 plate
        vs) plate conf (some vs) false false).scan_logs =
        st.scan_logs ++
        [{ plate_number := plate,
           scanned_at :=
             (add_plate (get_cached_result st plate).1 plate vs).now,
           confidence := conf,
           road_tax_valid := some vs.road_tax_valid,
           insurance_valid := some vs.insurance_valid,
           fine_issued := false, cached_result := false }] := by
      simp [log_scan, h2l]
    exact ⟨by simp [log_scan, h2f], ⟨_, hrow, rfl⟩, rfl⟩

/-- C1 (witness): both branches exercised at time 0 on a fresh state, with
an observation of `ABC 123` whose validation reports both certificates
invalid. -/
theorem C1_confidence_gate_witness :
    ((∃ f : Fine, (process_plate defaultSettings stFresh "ABC 123" 1
        (.response 200 dataBothInvalid) mockDefault).1.fines =
        stFresh.fines ++ [f]) ∧
      (∃ l : ScanLog, (process_plate defaultSettings stFresh "ABC 123" 1
        (.response 200 dataBothInvalid) mockDefault).1.scan_logs =
        stFresh.scan_logs ++ [l] ∧ l.fine_issued = true) ∧
      (process_plate defaultSettings stFresh "ABC 123" 1
        (.response 200 dataBothInvalid) mockDefault).2.fine_issued = true) ∧
    ((process_plate defaultSettings stFresh "XYZ999" 0
        (.response 200 dataBothInvalid) mockDefault).1.fines =
        stFresh.fines ∧
      (∃ l : ScanLog, (process_plate defaultSettings stFresh "XYZ999" 0
        (.response 200 dataBothInvalid) mockDefault).1.scan_logs =
        stFresh.scan_logs ++ [l] ∧ l.fine_issued = false) ∧
      (process_plate defaultSettings stFresh "XYZ999" 0
        (.response 200 dataBothInvalid) mockDefault).2.fine_issued =
        false) := by
  constructor
  · exact (C1_confidence_gate defaultSettings stFresh "ABC 123" 1
      (.response 200 dataBothInvalid) mockDefault vsABC123Invalid
      (by decide) (by rfl) (by decide)
      (by with_unfolding_all decide) (by with_unfolding_all decide)).1
      (by with_unfolding_all decide)
  · exact (C1_confidence_gate defaultSettings stFresh "XYZ999" 0
      (.response 200 dataBothInvalid) mockDefault
      { plate_number := "XYZ999", road_tax_valid := false,
        insurance_valid := false }
      (by decide) (by rfl) (by decide)
      (by with_unfolding_all decide) (by with_unfolding_all decide)).2
      (by with_unfolding_all decide)

/-! ## Claim C2: validator failure handling -/

/-- C2 (counterexample): the claim says every validator failure — network
error or timeout included — yields an error `ScanResult` with no cache
mutation and no log; but on a `httpx.RequestError` the client falls back to
mock data, so the pipeline reports no error, inserts a cache entry and
writes a scan log. -/
theorem C2_counterexample :
    (process_plate defaultSettings stFresh "XYZ999" 1
      (.networkError "Connection timeout") mockDefault).2.error = none ∧
    (process_plate defaultSettings stFresh "XYZ999" 1
      (.networkError "Connection timeout") mockDefault).1.cache.length
      = 1 ∧
    (process_plate defaultSettings stFresh "XYZ999" 1
      (.networkError "Connection timeout") mockDefault).1.scan_logs.length
      = 1 := by
  with_unfolding_all decide

/-- C2 (amended): only an upstream HTTP status other than 200/404 makes
`check_vehicle` raise; for such an observation (with the key absent from
the cache) the pipeline returns a `ScanResult` carrying the raised message,
no fine row, no scan-log row, no cache change beyond the miss counter;
network errors and timeouts never reach this path — the client silently
substitutes mock data and the pipeline proceeds as on a successful
validation. -/
theorem C2_validator_error_amended (s : Settings) (st : SysState)
    (plate : String) (conf : ℚ) (code : Nat) (data : VehicleData)
    (mock : String → VehicleStatus)
    (h200 : code ≠ 200) (h404 : code ≠ 404)
    (hmiss : lookupKey st.cache (normalize_plate plate) = none) :
    (process_plate s st plate conf (.response code data) mock).2.error =
      some ("API returned status " ++ toString code) ∧
    (process_plate s st plate conf (.response code data) mock).2.fine_issued
      = false ∧
    (process_plate s st plate conf (.response code data) mock).1.cache =
      st.cache ∧
    (process_plate s st plate conf (.response code data) mock).1.fines =
      st.fines ∧
    (process_plate s st plate conf (.response code data) mock).1.scan_logs
      = st.scan_logs ∧
    (process_plate s st plate conf (.response code data) mock).1.miss_count
      = st.miss_count + 1 := by
  have hlook : get_cached_result st plate =
      ({ st with miss_count := st.miss_count + 1 }, none) := by
    simp [get_cached_result, hmiss]
  have hcv : check_vehicle plate (.response code data) mock =
      .error ("API returned status " ++ toString code) := by
    simp [check_vehicle, h200, h404]
  simp [process_plate, hlook, hcv]

/-- C2 (witness): upstream status 500 on a fresh state. -/
theorem C2_validator_error_witness :
    (process_plate defaultSettings stFresh "ZZ1" 1
      (.response 500 dataBothInvalid) mockDefault).2.error =
      some "API returned status 500" ∧
    (process_plate defaultSettings stFresh "ZZ1" 1
      (.response 500 dataBothInvalid) mockDefault).1.cache =
      stFresh.cache ∧
    (process_plate defaultSettings stFresh "ZZ1" 1
      (.response 500 dataBothInvalid) mockDefault).1.fines =
      stFresh.fines ∧
    (process_plate defaultSettings stFresh "ZZ1" 1
      (.response 500 dataBothInvalid) mockDefault).1.scan_logs =
      stFresh.scan_logs := by
  have h := C2_validator_error_amended defaultSettings stFresh "ZZ1" 1 500
    dataBothInvalid mockDefault (by decide) (by decide) (by decide)
  exact ⟨h.1, h.2.2.1, h.2.2.2.1, h.2.2.2.2.1⟩

/-! ## Claim C4: cache hits never fine and never log -/

/-- C4 (claim): on a cache hit the pipeline creates no fine row and no
scan-log row, whatever the confidence and whatever the cached status, and
the returned `ScanResult` has `cached=true` and `fine_issued=false`. -/
theorem C4_cache_hit_no_fine (s : Settings) (st : SysState)
    (plate : String) (conf : ℚ) (resp : HttpOutcome)
    (mock : String → VehicleStatus) (cs : VehicleStatus)
    (h : (get_cached_result st plate).2 = some cs) :
    (process_plate s st plate conf resp mock).1.fines = st.fines ∧
    (process_plate s st plate conf resp mock).1.scan_logs = st.scan_logs ∧
    (process_plate s st plate conf resp mock).2.cached = true ∧
    (process_plate s st plate conf resp mock).2.fine_issued = false := by
  have hpres := get_cached_result_preserves st plate
  simp [process_plate, h, hpres.1, hpres.2.1]

/-- C4 (witness): a hit on a cached non-compliant status with maximal
confidence still fines nothing and logs nothing. -/
theorem C4_cache_hit_no_fine_witness :
    (process_plate defaultSettings
      { cooldown := 5,
        cache := [("AB1", { plate_number := "AB1", result := vsBothInvalid,
                            timestamp := 0 })],
        now := 3 } "ab-1" 1 (.response 200 dataBothInvalid)
      mockDefault).1.fines = [] ∧
    (process_plate defaultSettings
      { cooldown := 5,
        cache := [("AB1", { plate_number := "AB1", result := vsBothInvalid,
                            timestamp := 0 })],
        now := 3 } "ab-1" 1 (.response 200 dataBothInvalid)
      mockDefault).2.cached = true := by
  have h := C4_cache_hit_no_fine defaultSettings
    { cooldown := 5,
      cache := [("AB1", { plate_number := "AB1", result := vsBothInvalid,
                          timestamp := 0 })],
      now := 3 } "ab-1" 1 (.response 200 dataBothInvalid) mockDefault
    vsBothInvalid (by decide)
  exact ⟨h.1, h.2.2.1⟩

/-! ## Claim C5: the fine policy table -/

/-- C5 (claim): `calculate_fine` is total on the four compliance variants
and returns exactly the table amounts and categories; with the default
configuration (150.00 and 300.00) the both-expired amount is exactly
450.00. -/
theorem C5_fine_policy_table (s : Settings) (vs : VehicleStatus) :
    (vs.compliance_status = .compliant →
      calculate_fine s vs = (0, "none")) ∧
    (vs.compliance_status = .tax_expired →
      calculate_fine s vs = (s.road_tax_fine_amount, "road_tax")) ∧
    (vs.compliance_status = .insurance_expired →
      calculate_fine s vs = (s.insurance_fine_amount, "insurance")) ∧
    (vs.compliance_status = .both_expired →
      calculate_fine s vs =
        (s.road_tax_fine_amount + s.insurance_fine_amount, "both")) ∧
    defaultSettings.road_tax_fine_amount = 150 ∧
    defaultSettings.insurance_fine_amount = 300 ∧
    (vs.compliance_status = .both_expired →
      (calculate_fine defaultSettings vs).1 = 450) := by
  refine ⟨?_, ?_, ?_, ?_, rfl, rfl, ?_⟩ <;> intro h <;>
    simp [calculate_fine, h, defaultSettings]
  norm_num

/-- C5 (witness): the table evaluated on a both-expired status with the
default configuration. -/
theorem C5_fine_policy_table_witness :
    calculate_fine defaultSettings vsBothInvalid =
      (defaultSettings.road_tax_fine_amount +
        defaultSettings.insurance_fine_amount, "both") ∧
    (calculate_fine defaultSettings vsBothInvalid).1 = 450 :=
  ⟨(C5_fine_policy_table defaultSettings vsBothInvalid).2.2.2.1
      (by decide),
   (C5_fine_policy_table defaultSettings vsBothInvalid).2.2.2.2.2.2
      (by decide)⟩

/-! ## Claim C7: fine records and the plate key -/

/-- C7 (code bug): the pipeline stores the raw detected text
(`ABC 123`) as the fine's `plate_number`, while `get_fine_by_plate`
normalizes its query to `ABC123` and compares for equality, so the fine
just issued for this plate is not found when queried by the same text. -/
theorem C7_fine_record_raw_plate :
    (process_plate defaultSettings stFresh "ABC 123" 1
      (.response 200 dataBothInvalid) mockDefault).1.fines.map
      (fun f => f.plate_number) = ["ABC 123"] ∧
    normalize_plate "ABC 123" = "ABC123" ∧
    get_fine_by_plate (process_plate defaultSettings stFresh "ABC 123" 1
      (.response 200 dataBothInvalid) mockDefault).1 "ABC 123" = [] := by
  with_unfolding_all decide

/-! ## Claim C10: unknown vehicles are treated as compliant -/

/-- C10 (claim): a 404 from the upstream service parses to a fully
compliant status (both validity flags true), so processing such an
observation never adds a fine row and reports `fine_issued=false`,
whatever the cache state and confidence. -/
theorem C10_unknown_vehicle_compliant (s : Settings) (st : SysState)
    (plate : String) (conf : ℚ) (data : VehicleData)
    (mock : String → VehicleStatus) :
    check_vehicle plate (.response 404 data) mock =
      .ok { plate_number := plate, road_tax_valid := true,
            insurance_valid := true } ∧
    (process_plate s st plate conf (.response 404 data) mock).1.fines =
      st.fines ∧
    (process_plate s st plate conf (.response 404 data) mock).2.fine_issued
      = false := by
  have hpres := get_cached_result_preserves st plate
  have hcv : check_vehicle plate (.response 404 data) mock =
      .ok { plate_number := plate, road_tax_valid := true,
            insurance_valid := true } := by
    simp [check_vehicle]
  refine ⟨hcv, ?_, ?_⟩ <;>
    (cases h : (get_cached_result st plate).2 with
     | some cs => simp [process_plate, h, hpres.1]
     | none =>
       simp [process_plate, h, hcv, VehicleStatus.is_compliant, log_scan,
         add_plate, hpres.1])

end VoidTax
